import Mathlib

/-!
Verification of the audio-emotion extraction and scoring core of the
IA-AyudaAuditiva repository, shallowly embedded from `app_production.py`
(with the tempo guard also present identically in `app_robust.py`).

Numeric values are modelled over `ℚ`; Python `int()` truncation, `%` on
floats, and `min`/`max` are embedded by explicit executable definitions.
External librosa/numpy routines are modelled as oracle inputs: an
`Option` value records whether the call raised (`none`) or returned a
value (`some v`), so each embedded function is a function of the raw
input plus the outcomes of its external calls, exactly following the
control flow of the source.
-/

/-- Python `min(a, b)` on rationals: returns `a` when `a ≤ b`, else `b`. -/
def pyminQ (a b : ℚ) : ℚ := if a ≤ b then a else b

/-- Python `max(a, b)` on rationals. -/
def pymaxQ (a b : ℚ) : ℚ := if a ≤ b then b else a

/-- Python `min(a, b)` on integers. -/
def pyminI (a b : ℤ) : ℤ := if a ≤ b then a else b

/-- Python `max(a, b)` on integers. -/
def pymaxI (a b : ℤ) : ℤ := if a ≤ b then b else a

/-- Python `int(q)` truncates toward zero. -/
def pyInt (q : ℚ) : ℤ := if 0 ≤ q then ⌊q⌋ else ⌈q⌉

/-- Python float `x % m` for positive modulus `m`: `x - m * ⌊x / m⌋`. -/
def qmod (x m : ℚ) : ℚ := x - m * ⌊x / m⌋

/-- The five emotion labels of `emotion_scores` in `analyze_emotion_robust`
(app_production.py lines 258-264), in dict insertion order. -/
inductive Emotion where
  | alegria
  | tristeza
  | ansiedad
  | enojo
  | neutral
deriving DecidableEq, Repr

/-- The feature values read by `analyze_emotion_robust` via `features.get`
(app_production.py lines 239-247).  Both extraction paths produce all of
these keys, so the scorer input is modelled as a complete record; the
`analysis_method` tag is `"librosa"` (the `get` default, PCM paths) or
`"basic_file_analysis"` (byte-heuristic path). -/
structure Features where
  spectral_centroid : ℚ
  tempo : ℚ
  zcr : ℚ
  rms : ℚ
  mfcc_mean : ℚ
  chroma_mean : ℚ
  duration : ℚ
  audio_std : ℚ
  analysis_method : String
deriving DecidableEq, Repr

/-- Base scores (app_production.py lines 258-264): every emotion starts
at 5, Neutral at 10. -/
def baseScore : Emotion → ℚ
  | .neutral => 10
  | _ => 5

/-- Tempo rule ladder (app_production.py lines 267-277). -/
def tempoBonus (t : ℚ) (e : Emotion) : ℚ :=
  if t > 130 then (match e with | .alegria => 20 | .ansiedad => 15 | _ => 0)
  else if t > 110 then (match e with | .alegria => 12 | .neutral => 8 | _ => 0)
  else if t < 80 then (match e with | .tristeza => 20 | _ => 0)
  else if t < 100 then (match e with | .tristeza => 12 | .neutral => 6 | _ => 0)
  else 0

/-- Spectral-centroid rule ladder (app_production.py lines 280-290). -/
def centroidBonus (c : ℚ) (e : Emotion) : ℚ :=
  if c > 2200 then (match e with | .alegria => 15 | .ansiedad => 12 | _ => 0)
  else if c > 1800 then (match e with | .alegria => 8 | .neutral => 5 | _ => 0)
  else if c < 1000 then (match e with | .tristeza => 15 | _ => 0)
  else if c < 1400 then (match e with | .tristeza => 8 | .neutral => 4 | _ => 0)
  else 0

/-- RMS-energy rule ladder (app_production.py lines 293-303). -/
def rmsBonus (r : ℚ) (e : Emotion) : ℚ :=
  if r > 1/5 then (match e with | .enojo => 18 | .alegria => 10 | _ => 0)
  else if r > 3/20 then (match e with | .alegria => 12 | .enojo => 6 | _ => 0)
  else if r < 1/20 then (match e with | .tristeza => 15 | _ => 0)
  else if r < 1/10 then (match e with | .tristeza => 8 | .neutral => 6 | _ => 0)
  else 0

/-- Zero-crossing-rate rule ladder (app_production.py lines 306-314). -/
def zcrBonus (z : ℚ) (e : Emotion) : ℚ :=
  if z > 1/10 then (match e with | .ansiedad => 18 | .enojo => 10 | _ => 0)
  else if z > 7/100 then (match e with | .ansiedad => 10 | .neutral => 4 | _ => 0)
  else if z < 3/100 then (match e with | .tristeza => 10 | .neutral => 6 | _ => 0)
  else 0

/-- Band index of the tempo rule ladder: records which branch of the
if/elif ladder of app_production.py lines 267-277 fires (4 = no
branch). -/
def tempoBand (t : ℚ) : ℕ :=
  if t > 130 then 0 else if t > 110 then 1 else if t < 80 then 2
  else if t < 100 then 3 else 4

/-- Band index of the spectral-centroid rule ladder
(app_production.py lines 280-290). -/
def centroidBand (c : ℚ) : ℕ :=
  if c > 2200 then 0 else if c > 1800 then 1 else if c < 1000 then 2
  else if c < 1400 then 3 else 4

/-- Band index of the RMS-energy rule ladder
(app_production.py lines 293-303). -/
def rmsBand (r : ℚ) : ℕ :=
  if r > 1/5 then 0 else if r > 3/20 then 1 else if r < 1/20 then 2
  else if r < 1/10 then 3 else 4

/-- Band index of the zero-crossing-rate rule ladder
(app_production.py lines 306-314). -/
def zcrBand (z : ℚ) : ℕ :=
  if z > 1/10 then 0 else if z > 7/100 then 1 else if z < 3/100 then 2 else 3

/-- Accumulated score of each emotion before duration damping:
base value plus the four rule-ladder contributions. -/
def preDamp (fv : Features) (e : Emotion) : ℚ :=
  baseScore e + tempoBonus fv.tempo e + centroidBonus fv.spectral_centroid e +
    rmsBonus fv.rms e + zcrBonus fv.zcr e

/-- Duration factor `min(1.0, duration / 10.0)`
(app_production.py line 317). -/
def durationFactor (d : ℚ) : ℚ := pyminQ 1 (d / 10)

/-- Final score table: the duration factor multiplies every emotion
except Neutral (app_production.py lines 320-322). -/
def scoresFun (fv : Features) (e : Emotion) : ℚ :=
  if e = .neutral then preDamp fv e else preDamp fv e * durationFactor fv.duration

/-- Dict insertion order of `emotion_scores`. -/
def emotionOrder : List Emotion :=
  [.alegria, .tristeza, .ansiedad, .enojo, .neutral]

/-- Dominant emotion: `max(emotion_scores, key=emotion_scores.get)`
(app_production.py line 325), i.e. the first key of maximal score in
dict order. -/
def dominant (fv : Features) : Emotion :=
  emotionOrder.foldl (fun b e => if scoresFun fv b < scoresFun fv e then e else b) .alegria

/-- Score of the dominant emotion (app_production.py line 326). -/
def maxScore (fv : Features) : ℚ := scoresFun fv (dominant fv)

/-- The list `emotion_scores.values()` in dict order. -/
def scoresList (fv : Features) : List ℚ := emotionOrder.map (scoresFun fv)

/-- Descending sort `sorted(emotion_scores.values(), reverse=True)`
(app_production.py line 329). -/
def sortedScores (fv : Features) : List ℚ :=
  List.insertionSort (· ≥ ·) (scoresList fv)

/-- Highest entry `scores_list[0]` of the sorted score list. -/
def top1 (fv : Features) : ℚ := (sortedScores fv).headD 0

/-- Second entry `scores_list[1]` of the sorted score list. -/
def top2 (fv : Features) : ℚ := (sortedScores fv).getD 1 0

/-- Provenance tag set by the byte-heuristic path
(app_production.py line 221). -/
def bhTag : String := "basic_file_analysis"

/-- Raw confidence (app_production.py lines 329-333): the score list has
five entries, so `len(scores_list) > 1` always holds and the branch
condition is `scores_list[1] > 0`. -/
def confBase (fv : Features) : ℤ :=
  if 0 < top2 fv then pyInt (60 + (top1 fv - top2 fv) * 2)
  else pyInt (60 + maxScore fv)

/-- Final clamped confidence (app_production.py lines 336-339). -/
def confidence (fv : Features) : ℤ :=
  if fv.analysis_method = bhTag then pyminI 85 (pymaxI 60 (confBase fv - 10))
  else pyminI 95 (pymaxI 65 (confBase fv))

/-- Fields of the result dict of `analyze_emotion_robust`
(app_production.py lines 346-353) that are determined by the input
feature vector. -/
structure AnalysisResult where
  emotion : Emotion
  confidence : ℤ
  scores : Emotion → ℚ
  audio_duration : ℚ
  analysis_method : String

/-- The emotion scorer `analyze_emotion_robust`
(app_production.py lines 231-353) on a complete feature vector. -/
def analyze_emotion_robust (fv : Features) : AnalysisResult :=
  { emotion := dominant fv
    confidence := confidence fv
    scores := scoresFun fv
    audio_duration := fv.duration
    analysis_method := fv.analysis_method }

/-- A Python/numpy float value as seen by the tempo guard: finite,
NaN, +inf or -inf. -/
inductive FloatVal where
  | fin (q : ℚ)
  | nan
  | inf
  | ninf
deriving DecidableEq, Repr

/-- The `np.isnan` test. -/
def FloatVal.isNan : FloatVal → Bool
  | .nan => true
  | _ => false

/-- Finiteness of a float value. -/
def FloatVal.isFinite : FloatVal → Bool
  | .fin _ => true
  | _ => false

/-- Tempo feature stored by the guarded tempo block
(app_production.py lines 170-175; identically app_robust.py lines
147-156): `none` models `beat_track` raising, `some v` models it
returning the estimate `v`; the stored value is
`float(tempo) if not np.isnan(tempo) else 120.0`, and the `except`
branch stores `120.0`. -/
def tempoFeature (r : Option FloatVal) : FloatVal :=
  match r with
  | none => .fin 120
  | some v => if v.isNan then .fin 120 else v

/-- Peak absolute amplitude `np.max(np.abs(y))` of a sample buffer
(0 for the empty buffer, on which numpy would raise). -/
def peak (y : List ℚ) : ℚ := (y.map (fun s => |s|)).foldr max 0

/-- Amplitude normalization (app_production.py lines 135-136;
identically app_robust.py lines 93-94): divide by the peak only when
it is strictly positive. -/
def normalizeAudio (y : List ℚ) : List ℚ :=
  if 0 < peak y then y.map (fun s => s / peak y) else y

/-- Plain `np.max(y)` of a nonempty buffer. -/
def listMax (l : List ℚ) : ℚ :=
  match l with
  | [] => 0
  | a :: t => t.foldl max a

/-- Outcomes of the external librosa/numpy calls made by
`extract_librosa_features`: for each guarded block, `none` models the
call raising and `some v` the returned value; `stdVal` is the value of
the unguarded `np.std` call. -/
structure LibOutcomes where
  mfccPair : Option (ℚ × ℚ)
  centroidVal : Option ℚ
  zcrVal : Option ℚ
  rmsVal : Option ℚ
  beatVal : Option FloatVal
  rolloffVal : Option ℚ
  chromaVal : Option ℚ
  stdVal : ℚ
deriving DecidableEq, Repr

/-- The feature dict produced by `extract_librosa_features`
(app_production.py lines 129-198). -/
structure LibFeatures where
  mfcc_mean : ℚ
  mfcc_std : ℚ
  spectral_centroid : ℚ
  zcr : ℚ
  rms : ℚ
  tempo : FloatVal
  spectral_rolloff : ℚ
  chroma_mean : ℚ
  duration : ℚ
  audio_std : ℚ
  audio_max : ℚ
deriving DecidableEq, Repr

/-- `extract_librosa_features(y, sr)` (app_production.py lines 129-198).
On the empty buffer the initial `np.max(np.abs(y))` raises and the outer
`except` returns `None`.  Otherwise each guarded block stores either its
computed value or its constant defaults; note that `spectral_rolloff`
and `chroma_mean` share one `try` block (lines 178-186), so a failure of
the chroma computation also substitutes the rolloff default. -/
def extract_librosa_features (y : List ℚ) (sr : ℚ) (o : LibOutcomes) : Option LibFeatures :=
  if y = [] then none
  else
    some
      { mfcc_mean := (match o.mfccPair with | some p => p.1 | none => 0)
        mfcc_std := (match o.mfccPair with | some p => p.2 | none => 1)
        spectral_centroid := o.centroidVal.getD 1500
        zcr := o.zcrVal.getD (1/20)
        rms := o.rmsVal.getD (1/10)
        tempo := tempoFeature o.beatVal
        spectral_rolloff :=
          (match o.rolloffVal, o.chromaVal with | some r, some _ => r | _, _ => 2000)
        chroma_mean :=
          (match o.rolloffVal, o.chromaVal with | some _, some c => c | _, _ => 1/2)
        duration := (y.length : ℚ) / sr
        audio_std := o.stdVal
        audio_max := listMax (normalizeAudio y) }

/-- The basic-property dict of `analyze_audio_basic_properties`
(app_production.py lines 50-75): file size, estimated duration capped at
60 s, header byte diversity `len(set(header)) / 256.0`, and size-based
complexity. -/
structure BasicProps where
  file_size : ℕ
  estimated_duration : ℚ
  header_entropy : ℚ
  file_complexity : ℚ
deriving DecidableEq, Repr

/-- `analyze_audio_basic_properties` (app_production.py lines 50-75);
`header` is the first (at most 1024) bytes of the file. -/
def analyze_audio_basic_properties (fileSize : ℕ) (header : List ℕ) : BasicProps :=
  { file_size := fileSize
    estimated_duration := pyminQ ((fileSize : ℚ) / (44100 * 2)) 60
    header_entropy := (header.dedup.length : ℚ) / 256
    file_complexity := (fileSize : ℚ) / 1024 }

/-- The synthetic feature dict of `convert_basic_to_audio_features`
(app_production.py lines 200-229); all fields rational. -/
structure BasicFeatures where
  mfcc_mean : ℚ
  mfcc_std : ℚ
  spectral_centroid : ℚ
  zcr : ℚ
  rms : ℚ
  tempo : ℚ
  spectral_rolloff : ℚ
  chroma_mean : ℚ
  duration : ℚ
  audio_std : ℚ
  audio_max : ℚ
deriving DecidableEq, Repr

/-- `convert_basic_to_audio_features` (app_production.py lines 200-229). -/
def convert_basic_to_audio_features (b : BasicProps) : BasicFeatures :=
  { mfcc_mean := (b.header_entropy - 1/2) * 20
    mfcc_std := b.header_entropy * 15
    spectral_centroid := 1000 + qmod b.file_complexity 1000
    zcr := 3/100 + b.header_entropy * (1/20)
    rms := 1/20 + qmod b.file_complexity 100 / 1000
    tempo := 80 + ((b.file_size % 80 : ℕ) : ℚ)
    spectral_rolloff := 1500 + qmod b.file_complexity 1500
    chroma_mean := 3/10 + b.header_entropy * (2/5)
    duration := b.estimated_duration
    audio_std := 1/20 + b.header_entropy * (1/10)
    audio_max := 1/2 + b.header_entropy * (1/2) }

/-- Byte-heuristic synthesizer: composition of the basic analysis and
the conversion to synthetic features (method 4 of the chain). -/
def synthFeatures (fileSize : ℕ) (header : List ℕ) : BasicFeatures :=
  convert_basic_to_audio_features (analyze_audio_basic_properties fileSize header)

/-- Result of the extraction chain: a librosa feature dict or a
byte-heuristic dict (the latter carries the `basic_file_analysis` tag). -/
inductive ExtractResult where
  | lib (f : LibFeatures)
  | basic (f : BasicFeatures)
deriving DecidableEq, Repr

/-- Outcomes of the external decode attempts made by
`extract_audio_features_multiple_methods`: `m1` is the direct
`librosa.load` at 22050 Hz (`none` = raised), `m2` the load of the
ffmpeg-converted file, `m3` the alternate load at native rate together
with that rate, and `m3res` the resample result used when the native
rate differs from 22050. -/
structure DecodeOutcomes where
  m1 : Option (List ℚ)
  isWebm : Bool
  convOk : Bool
  m2 : Option (List ℚ)
  m3 : Option (List ℚ × ℕ)
  m3res : Option (List ℚ)
deriving Repr

/-- `extract_audio_features_multiple_methods` (app_production.py lines
77-127).  Method 1 returns the librosa extraction only when the decoded
buffer is nonempty, otherwise falls through; method 2 runs only for webm
files with a successful conversion; method 3 returns the librosa
extraction of its (possibly resampled) buffer with no emptiness check;
method 4 always produces the byte-heuristic dict. -/
def extract_audio_features_multiple_methods (fileSize : ℕ) (header : List ℕ)
    (d : DecodeOutcomes) (o : LibOutcomes) : Option ExtractResult :=
  let step4 : Option ExtractResult := some (.basic (synthFeatures fileSize header))
  let step3 : Option ExtractResult :=
    match d.m3 with
    | none => step4
    | some (y, sr) =>
      match (if sr = 22050 then some y else d.m3res) with
      | none => step4
      | some y2 => (extract_librosa_features y2 22050 o).map ExtractResult.lib
  let step2 : Option ExtractResult :=
    if d.isWebm && d.convOk then
      match d.m2 with
      | none => step3
      | some y => (extract_librosa_features y 22050 o).map ExtractResult.lib
    else step3
  match d.m1 with
  | some y => if 0 < y.length then (extract_librosa_features y 22050 o).map ExtractResult.lib
              else step2
  | none => step2

/-- View of a byte-heuristic feature dict as scorer input: the dict
carries `analysis_method = 'basic_file_analysis'` and all keys read by
the scorer. -/
def featuresOfBasic (bf : BasicFeatures) : Features :=
  { spectral_centroid := bf.spectral_centroid
    tempo := bf.tempo
    zcr := bf.zcr
    rms := bf.rms
    mfcc_mean := bf.mfcc_mean
    chroma_mean := bf.chroma_mean
    duration := bf.duration
    audio_std := bf.audio_std
    analysis_method := bhTag }

/-- The full byte-heuristic pipeline: raw file metadata to analysis
result (the composition exercised when every decode strategy fails). -/
def basicPipeline (fileSize : ℕ) (header : List ℕ) : AnalysisResult :=
  analyze_emotion_robust (featuresOfBasic (synthFeatures fileSize header))

/-- Scorer input with a given tempo and otherwise band-neutral values,
used as concrete test vector. -/
def fvT (t : ℚ) : Features :=
  { spectral_centroid := 1500
    tempo := t
    zcr := 1/20
    rms := 1/10
    mfcc_mean := 0
    chroma_mean := 1/2
    duration := 10
    audio_std := 1/10
    analysis_method := "librosa" }

/-- Scorer input with zero duration, used as concrete test vector. -/
def fvD0 : Features :=
  { spectral_centroid := 1500
    tempo := 120
    zcr := 1/20
    rms := 1/10
    mfcc_mean := 0
    chroma_mean := 1/2
    duration := 0
    audio_std := 1/10
    analysis_method := "librosa" }

/-- Librosa outcomes in which every guarded computation succeeds; the
rolloff value is 3000. -/
def oC2a : LibOutcomes :=
  { mfccPair := some (1, 2)
    centroidVal := some 1700
    zcrVal := some (1/25)
    rmsVal := some (3/25)
    beatVal := some (.fin 100)
    rolloffVal := some 3000
    chromaVal := some (2/5)
    stdVal := 1/10 }

/-- Same outcomes as `oC2a` except that the chroma computation raises. -/
def oC2b : LibOutcomes := { oC2a with chromaVal := none }

/-- Librosa outcomes in which every guarded computation raises. -/
def oAll : LibOutcomes :=
  { mfccPair := none
    centroidVal := none
    zcrVal := none
    rmsVal := none
    beatVal := none
    rolloffVal := none
    chromaVal := none
    stdVal := 0 }

/-- Decode outcomes in which every decode attempt raises. -/
def dAll : DecodeOutcomes :=
  { m1 := none, isWebm := false, convOk := false, m2 := none, m3 := none, m3res := none }

/-- Decode outcomes of a non-empty file that decodes, without raising,
to an empty sample buffer at the canonical 22050 Hz rate in both the
direct and the alternate load (e.g. a valid 22050 Hz WAV file with zero
data frames). -/
def dC1 : DecodeOutcomes :=
  { m1 := some [], isWebm := false, convOk := false, m2 := none,
    m3 := some ([], 22050), m3res := none }

lemma pyminI_eq (a b : ℤ) : pyminI a b = min a b := by
  unfold pyminI
  split_ifs with h
  · exact (min_eq_left h).symm
  · exact (min_eq_right (le_of_not_le h)).symm

lemma pymaxI_eq (a b : ℤ) : pymaxI a b = max a b := by
  unfold pymaxI
  split_ifs with h
  · exact (max_eq_right h).symm
  · exact (max_eq_left (le_of_not_le h)).symm

lemma foldr_max_nonneg (l : List ℚ) : 0 ≤ l.foldr max 0 := by
  induction l with
  | nil => exact le_refl 0
  | cons a t ih => exact le_trans ih (le_max_right a _)

lemma le_foldr_max (l : List ℚ) : ∀ x ∈ l, x ≤ l.foldr max 0 := by
  induction l with
  | nil => intro x hx; cases hx
  | cons a t ih =>
    intro x hx
    rcases List.mem_cons.mp hx with rfl | hx2
    · exact le_max_left x _
    · exact le_trans (ih x hx2) (le_max_right a _)

lemma tempoBonus_nonneg (t : ℚ) (e : Emotion) : 0 ≤ tempoBonus t e := by
  unfold tempoBonus
  split_ifs <;> cases e <;> norm_num

lemma centroidBonus_nonneg (c : ℚ) (e : Emotion) : 0 ≤ centroidBonus c e := by
  unfold centroidBonus
  split_ifs <;> cases e <;> norm_num

lemma rmsBonus_nonneg (r : ℚ) (e : Emotion) : 0 ≤ rmsBonus r e := by
  unfold rmsBonus
  split_ifs <;> cases e <;> norm_num

lemma zcrBonus_nonneg (z : ℚ) (e : Emotion) : 0 ≤ zcrBonus z e := by
  unfold zcrBonus
  split_ifs <;> cases e <;> norm_num

lemma preDamp_ge_base (fv : Features) (e : Emotion) : baseScore e ≤ preDamp fv e := by
  have h1 := tempoBonus_nonneg fv.tempo e
  have h2 := centroidBonus_nonneg fv.spectral_centroid e
  have h3 := rmsBonus_nonneg fv.rms e
  have h4 := zcrBonus_nonneg fv.zcr e
  unfold preDamp
  linarith

lemma neutral_ge_ten (fv : Features) : 10 ≤ scoresFun fv Emotion.neutral := by
  have h := preDamp_ge_base fv Emotion.neutral
  simp only [scoresFun, if_pos rfl]
  simpa [baseScore] using h

lemma foldl_argmax_le (f : Emotion → ℚ) :
    ∀ (l : List Emotion) (init : Emotion),
      f init ≤ f (l.foldl (fun b e => if f b < f e then e else b) init) ∧
      ∀ e ∈ l, f e ≤ f (l.foldl (fun b e => if f b < f e then e else b) init) := by
  intro l
  induction l with
  | nil =>
    intro init
    exact ⟨le_refl _, by simp⟩
  | cons x xs ih =>
    intro init
    simp only [List.foldl_cons]
    have h1 : f init ≤ f (if f init < f x then x else init) := by
      split_ifs with h
      · exact le_of_lt h
      · exact le_refl _
    have h2 : f x ≤ f (if f init < f x then x else init) := by
      split_ifs with h
      · exact le_refl _
      · exact le_of_not_lt h
    refine ⟨le_trans h1 (ih _).1, ?_⟩
    intro e he
    rcases List.mem_cons.mp he with rfl | hmem
    · exact le_trans h2 (ih _).1
    · exact (ih _).2 e hmem

lemma foldl_argmax_mem (f : Emotion → ℚ) :
    ∀ (l : List Emotion) (init : Emotion),
      l.foldl (fun b e => if f b < f e then e else b) init = init ∨
      l.foldl (fun b e => if f b < f e then e else b) init ∈ l := by
  intro l
  induction l with
  | nil => intro init; exact Or.inl rfl
  | cons x xs ih =>
    intro init
    simp only [List.foldl_cons]
    rcases ih (if f init < f x then x else init) with h | h
    · rw [h]
      split_ifs
      · exact Or.inr (List.mem_cons_self _ _)
      · exact Or.inl rfl
    · exact Or.inr (List.mem_cons_of_mem _ h)

lemma dominant_mem (fv : Features) : dominant fv ∈ emotionOrder := by
  rcases foldl_argmax_mem (scoresFun fv) emotionOrder Emotion.alegria with h | h
  · unfold dominant
    rw [h]
    simp [emotionOrder]
  · exact h

lemma le_maxScore (fv : Features) (e : Emotion) (he : e ∈ emotionOrder) :
    scoresFun fv e ≤ maxScore fv :=
  (foldl_argmax_le (scoresFun fv) emotionOrder Emotion.alegria).2 e he

lemma sortedScores_sorted (fv : Features) : List.Sorted (· ≥ ·) (sortedScores fv) :=
  List.sorted_insertionSort _ _

lemma sortedScores_perm (fv : Features) : List.Perm (sortedScores fv) (scoresList fv) :=
  List.perm_insertionSort _ _

lemma sortedScores_length (fv : Features) : (sortedScores fv).length = 5 := by
  rw [(sortedScores_perm fv).length_eq]
  rfl

lemma sortedScores_shape (fv : Features) : ∃ a b r, sortedScores fv = a :: b :: r := by
  rcases h : sortedScores fv with _ | ⟨a, _ | ⟨b, r⟩⟩
  · have hl := sortedScores_length fv
    rw [h] at hl
    simp at hl
  · have hl := sortedScores_length fv
    rw [h] at hl
    simp at hl
  · exact ⟨a, b, r, rfl⟩

lemma topSpec (fv : Features) :
    top1 fv ∈ scoresList fv ∧ (∀ s ∈ scoresList fv, s ≤ top1 fv) ∧
    top2 fv ∈ (scoresList fv).erase (top1 fv) ∧
    (∀ s ∈ (scoresList fv).erase (top1 fv), s ≤ top2 fv) ∧
    top2 fv ≤ top1 fv := by
  obtain ⟨a, b, r, habr⟩ := sortedScores_shape fv
  have hs := sortedScores_sorted fv
  have hp := sortedScores_perm fv
  rw [habr] at hs hp
  have ht1 : top1 fv = a := by rw [top1, habr]; rfl
  have ht2 : top2 fv = b := by rw [top2, habr]; rfl
  rw [ht1, ht2]
  have hmem_a : a ∈ scoresList fv := hp.mem_iff.mp (by simp)
  have hub : ∀ s ∈ scoresList fv, s ≤ a := by
    intro s hsmem
    have hs3 : s ∈ a :: b :: r := hp.mem_iff.mpr hsmem
    rcases List.mem_cons.mp hs3 with rfl | h2
    · exact le_refl s
    · exact List.rel_of_sorted_cons hs s h2
  have hperm_erase : List.Perm ((scoresList fv).erase a) (b :: r) := by
    have h4 := hp.symm.erase a
    rwa [List.erase_cons_head] at h4
  have hmem_b : b ∈ (scoresList fv).erase a := hperm_erase.mem_iff.mpr (by simp)
  have hub2 : ∀ s ∈ (scoresList fv).erase a, s ≤ b := by
    intro s hsmem
    have h3 : s ∈ b :: r := hperm_erase.mem_iff.mp hsmem
    have hs2 : List.Sorted (· ≥ ·) (b :: r) := (List.sorted_cons.mp hs).2
    rcases List.mem_cons.mp h3 with rfl | h4
    · exact le_refl s
    · exact List.rel_of_sorted_cons hs2 s h4
  have hab : b ≤ a := List.rel_of_sorted_cons hs b (by simp)
  exact ⟨hmem_a, hub, hmem_b, hub2, hab⟩

lemma top1_eq_maxScore (fv : Features) : top1 fv = maxScore fv := by
  obtain ⟨hm, hub, _, _, _⟩ := topSpec fv
  have h1 : top1 fv ≤ maxScore fv := by
    simp only [scoresList] at hm
    obtain ⟨e, hemem, heq⟩ := List.mem_map.mp hm
    rw [← heq]
    exact le_maxScore fv e hemem
  have h2 : maxScore fv ≤ top1 fv := by
    have hmem : maxScore fv ∈ scoresList fv := by
      simp only [scoresList, maxScore]
      exact List.mem_map_of_mem _ (dominant_mem fv)
    exact hub _ hmem
  exact le_antisymm h1 h2

lemma ten_le_top1 (fv : Features) : 10 ≤ top1 fv := by
  obtain ⟨_, hub, _, _, _⟩ := topSpec fv
  have hmem : scoresFun fv Emotion.neutral ∈ scoresList fv := by
    simp only [scoresList]
    exact List.mem_map_of_mem _ (by simp [emotionOrder])
  exact le_trans (neutral_ge_ten fv) (hub _ hmem)

lemma confBase_eq (fv : Features) :
    confBase fv =
      (if 0 < top2 fv then ⌊(60:ℚ) + (top1 fv - top2 fv) * 2⌋ else ⌊(60:ℚ) + top1 fv⌋) := by
  have hab : top2 fv ≤ top1 fv := (topSpec fv).2.2.2.2
  unfold confBase
  split_ifs with h
  · unfold pyInt
    rw [if_pos (by linarith : (0:ℚ) ≤ 60 + (top1 fv - top2 fv) * 2)]
  · rw [← top1_eq_maxScore fv]
    unfold pyInt
    rw [if_pos (by have := ten_le_top1 fv; linarith : (0:ℚ) ≤ 60 + top1 fv)]

/-- C3 counterexample: in `analyze_emotion_robust` the tempo rule adds a
flat bonus, not one proportional to the exceedance of the threshold: at
tempo 140 and tempo 150 (both above the 130 threshold, with different
exceedances 10 and 20) the accumulated Joy score is identically 25,
while at the threshold boundary tempo 130 it is 17 — a jump, so the
score is a step function of tempo, not continuous, and the contribution
above the threshold is a nonzero constant rather than k·(tempo − 130). -/
theorem claim_C3_cex :
    scoresFun (fvT 140) Emotion.alegria = 25 ∧
    scoresFun (fvT 150) Emotion.alegria = 25 ∧
    scoresFun (fvT 130) Emotion.alegria = 17 ∧
    scoresFun (fvT 130) Emotion.alegria ≠ scoresFun (fvT 140) Emotion.alegria := by
  unfold scoresFun preDamp baseScore tempoBonus centroidBonus rmsBonus zcrBonus
    durationFactor pyminQ fvT
  norm_num

lemma tempoBonus_band (t1 t2 : ℚ) (h : tempoBand t1 = tempoBand t2) (e : Emotion) :
    tempoBonus t1 e = tempoBonus t2 e := by
  unfold tempoBand at h
  unfold tempoBonus
  split_ifs at h ⊢ <;> first | rfl | omega

lemma centroidBonus_band (c1 c2 : ℚ) (h : centroidBand c1 = centroidBand c2) (e : Emotion) :
    centroidBonus c1 e = centroidBonus c2 e := by
  unfold centroidBand at h
  unfold centroidBonus
  split_ifs at h ⊢ <;> first | rfl | omega

lemma rmsBonus_band (r1 r2 : ℚ) (h : rmsBand r1 = rmsBand r2) (e : Emotion) :
    rmsBonus r1 e = rmsBonus r2 e := by
  unfold rmsBand at h
  unfold rmsBonus
  split_ifs at h ⊢ <;> first | rfl | omega

lemma zcrBonus_band (z1 z2 : ℚ) (h : zcrBand z1 = zcrBand z2) (e : Emotion) :
    zcrBonus z1 e = zcrBonus z2 e := by
  unfold zcrBand at h
  unfold zcrBonus
  split_ifs at h ⊢ <;> first | rfl | omega

/-- C3 amended: every rule of `analyze_emotion_robust` adds a flat
constant bonus on each of its threshold bands: for any two feature
vectors whose tempo, spectral centroid, RMS energy and zero-crossing
rate lie band-wise in the same branches of the respective if/elif
ladders, every rule contribution is identical for every emotion, the
accumulated pre-damping scores agree, and (for equal durations) the
whole final score table agrees — so each contribution is constant
within its band, not proportional to the threshold exceedance, and the
accumulated scores are step functions of the feature inputs. -/
theorem claim_C3_amended (fv fw : Features) (e : Emotion)
    (ht : tempoBand fv.tempo = tempoBand fw.tempo)
    (hc : centroidBand fv.spectral_centroid = centroidBand fw.spectral_centroid)
    (hr : rmsBand fv.rms = rmsBand fw.rms)
    (hz : zcrBand fv.zcr = zcrBand fw.zcr) :
    tempoBonus fv.tempo e = tempoBonus fw.tempo e ∧
    centroidBonus fv.spectral_centroid e = centroidBonus fw.spectral_centroid e ∧
    rmsBonus fv.rms e = rmsBonus fw.rms e ∧
    zcrBonus fv.zcr e = zcrBonus fw.zcr e ∧
    preDamp fv e = preDamp fw e ∧
    (fv.duration = fw.duration → scoresFun fv e = scoresFun fw e) := by
  have h1 := tempoBonus_band _ _ ht e
  have h2 := centroidBonus_band _ _ hc e
  have h3 := rmsBonus_band _ _ hr e
  have h4 := zcrBonus_band _ _ hz e
  have h5 : preDamp fv e = preDamp fw e := by
    unfold preDamp
    rw [h1, h2, h3, h4]
  refine ⟨h1, h2, h3, h4, h5, ?_⟩
  intro hd
  unfold scoresFun
  rw [h5, hd]

/-- C3 witness: the amended statement at tempo 140 versus 150, with the
other features identical (hence band-wise equal). -/
theorem claim_C3_witness :
    tempoBonus 140 Emotion.alegria = tempoBonus 150 Emotion.alegria ∧
    scoresFun (fvT 140) Emotion.alegria = scoresFun (fvT 150) Emotion.alegria := by
  have h := claim_C3_amended (fvT 140) (fvT 150) Emotion.alegria
    (by show tempoBand 140 = tempoBand 150; unfold tempoBand; norm_num) rfl rfl rfl
  exact ⟨h.1, h.2.2.2.2.2 rfl⟩

/-- C5: the duration factor `min(1, duration/10)` lies in [0,1] for
nonnegative durations, is monotone, reaches 1 at 10 seconds; Neutral is
left undamped while every other emotion is multiplied by the factor; and
for a feature vector of zero duration every non-Neutral score collapses
to 0 and the selected dominant emotion is Neutral regardless of the
other feature values. -/
theorem claim_C5 (fv : Features) (d1 d2 : ℚ) (hdur : fv.duration = 0)
    (h12 : d1 ≤ d2) (h1 : 0 ≤ d1) :
    (0 ≤ durationFactor d1 ∧ durationFactor d1 ≤ 1) ∧
    durationFactor d1 ≤ durationFactor d2 ∧
    (10 ≤ d2 → durationFactor d2 = 1) ∧
    scoresFun fv Emotion.neutral = preDamp fv Emotion.neutral ∧
    (∀ e, e ≠ Emotion.neutral →
      scoresFun fv e = preDamp fv e * durationFactor fv.duration ∧ scoresFun fv e = 0) ∧
    dominant fv = Emotion.neutral := by
  have hfac0 : durationFactor 0 = 0 := by
    unfold durationFactor pyminQ
    rw [if_neg (by norm_num)]
    norm_num
  have hzero : ∀ e, e ≠ Emotion.neutral → scoresFun fv e = 0 := by
    intro e he
    rw [scoresFun, if_neg he, hdur, hfac0, mul_zero]
  refine ⟨?_, ?_, ?_, by simp [scoresFun], ?_, ?_⟩
  · unfold durationFactor pyminQ
    split_ifs with h
    · constructor <;> norm_num
    · constructor <;> [positivity; linarith [lt_of_not_le h]]
  · unfold durationFactor pyminQ
    have hdiv : d1 / 10 ≤ d2 / 10 := by linarith
    split_ifs with ha hb hb <;> linarith
  · intro h10
    unfold durationFactor pyminQ
    rw [if_pos (by linarith : (1:ℚ) ≤ d2 / 10)]
  · intro e he
    exact ⟨by rw [scoresFun, if_neg he], hzero e he⟩
  · by_contra hne
    have h0 : scoresFun fv (dominant fv) = 0 := hzero _ hne
    have hge : 10 ≤ scoresFun fv (dominant fv) :=
      le_trans (neutral_ge_ten fv) (le_maxScore fv Emotion.neutral (by simp [emotionOrder]))
    linarith

/-- C5 witness: the theorem applied to the concrete zero-duration vector
`fvD0` and durations 3 ≤ 12. -/
theorem claim_C5_witness :
    durationFactor 12 = 1 ∧ dominant fvD0 = Emotion.neutral ∧
    scoresFun fvD0 Emotion.enojo = 0 := by
  have h := claim_C5 fvD0 3 12 rfl (by norm_num) (by norm_num)
  exact ⟨h.2.2.1 (by norm_num), h.2.2.2.2.2, (h.2.2.2.2.1 Emotion.enojo (by decide)).2⟩

/-- C7: the scorer and the embedded extraction pipeline are pure
functions of their inputs — re-running `analyze_emotion_robust`, the
byte-heuristic pipeline, or the full extraction chain on identical
inputs (identical bytes and identical external-call outcomes) yields
identical score tables, dominant labels, confidences, feature vectors
and analysis results; no state, randomness or clock enters the embedded
scoring path. -/
theorem claim_C7 (f g : Features) (n1 n2 : ℕ) (l1 l2 : List ℕ)
    (d1 d2 : DecodeOutcomes) (o1 o2 : LibOutcomes)
    (hfg : f = g) (hn : n1 = n2) (hl : l1 = l2) (hd : d1 = d2) (ho : o1 = o2) :
    analyze_emotion_robust f = analyze_emotion_robust g ∧
    basicPipeline n1 l1 = basicPipeline n2 l2 ∧
    extract_audio_features_multiple_methods n1 l1 d1 o1 =
      extract_audio_features_multiple_methods n2 l2 d2 o2 := by
  subst hfg hn hl hd ho
  exact ⟨rfl, rfl, rfl⟩

/-- C7 witness: the theorem applied to concrete identical inputs. -/
theorem claim_C7_witness :
    analyze_emotion_robust fvD0 = analyze_emotion_robust fvD0 ∧
    basicPipeline 5 [1, 2] = basicPipeline 5 [1, 2] ∧
    extract_audio_features_multiple_methods 5 [1, 2] dAll oAll =
      extract_audio_features_multiple_methods 5 [1, 2] dAll oAll :=
  claim_C7 fvD0 fvD0 5 5 [1, 2] [1, 2] dAll dAll oAll oAll rfl rfl rfl rfl rfl

/-- C8: amplitude normalization divides by the peak absolute sample
value only when that peak is strictly positive; the peak is always
nonnegative, and when it is zero the buffer is left unchanged — and is
in fact all zero — so no division by zero ever occurs. -/
theorem claim_C8 (y : List ℚ) :
    0 ≤ peak y ∧
    (peak y = 0 → normalizeAudio y = y ∧ ∀ s ∈ y, s = 0) ∧
    (0 < peak y → normalizeAudio y = y.map (fun s => s / peak y)) := by
  refine ⟨foldr_max_nonneg _, ?_, ?_⟩
  · intro h
    refine ⟨by simp [normalizeAudio, h], ?_⟩
    intro s hs
    have h1 : |s| ≤ peak y := le_foldr_max _ _ (List.mem_map_of_mem _ hs)
    rw [h] at h1
    exact abs_eq_zero.mp (le_antisymm h1 (abs_nonneg s))
  · intro h
    unfold normalizeAudio
    rw [if_pos h]

/-- C8 witness: the theorem applied to a buffer with positive peak and
to the all-zero buffer. -/
theorem claim_C8_witness :
    normalizeAudio [1] = List.map (fun s => s / peak [1]) [1] ∧
    normalizeAudio [0, 0] = [0, 0] := by
  refine ⟨(claim_C8 [1]).2.2 ?_, ((claim_C8 [0, 0]).2.1 ?_).1⟩
  · norm_num [peak, max_def]
  · norm_num [peak, max_def]

/-- C9 counterexample: the tempo guard tests only `np.isnan`, so an
infinite tempo estimate is stored unchanged — not replaced by the
default 120 — and the stored tempo value is then not finite,
contradicting the claim for the infinite case. -/
theorem claim_C9_cex :
    tempoFeature (some FloatVal.inf) = FloatVal.inf ∧
    tempoFeature (some FloatVal.inf) ≠ FloatVal.fin 120 ∧
    (tempoFeature (some FloatVal.inf)).isFinite = false := by
  refine ⟨rfl, ?_, rfl⟩
  intro h
  cases h

/-- C9 amended: the tempo block replaces a NaN estimate (and a raising
`beat_track` call) by the default 120, so the stored tempo is never NaN;
an infinite estimate, however, is passed through unchanged. -/
theorem claim_C9_amended (r : Option FloatVal) (v : FloatVal) (hv : v.isNan = true) :
    tempoFeature (some v) = FloatVal.fin 120 ∧
    tempoFeature none = FloatVal.fin 120 ∧
    (tempoFeature r).isNan = false := by
  refine ⟨by simp [tempoFeature, hv], rfl, ?_⟩
  cases r with
  | none => rfl
  | some w => cases w <;> simp [tempoFeature, FloatVal.isNan]

/-- C9 witness: the amended statement at a NaN estimate and a finite
estimate. -/
theorem claim_C9_witness :
    tempoFeature (some FloatVal.nan) = FloatVal.fin 120 ∧
    (tempoFeature (some (FloatVal.fin 95))).isNan = false :=
  ⟨(claim_C9_amended (some (FloatVal.fin 95)) FloatVal.nan rfl).1,
   (claim_C9_amended (some (FloatVal.fin 95)) FloatVal.nan rfl).2.2⟩

/-- C10: for every input feature vector the score table assigns Neutral
at least its base 10 (rules only add to it and duration damping is never
applied to Neutral, whose final score equals its pre-damping value), so
the top score — the score of the selected dominant emotion — is strictly
positive and the table is never all-zero. -/
theorem claim_C10 (fv : Features) :
    10 ≤ scoresFun fv Emotion.neutral ∧
    scoresFun fv Emotion.neutral = preDamp fv Emotion.neutral ∧
    0 < scoresFun fv (dominant fv) := by
  refine ⟨neutral_ge_ten fv, by simp [scoresFun], ?_⟩
  have h1 := le_maxScore fv Emotion.neutral (by simp [emotionOrder])
  have h2 := neutral_ge_ten fv
  unfold maxScore at h1
  linarith

/-- C2 counterexample: in `extract_librosa_features` the spectral
rolloff and the chroma mean share a single guarded block, so when the
rolloff computation succeeds (value 3000) but the chroma computation
fails, the default 2000 is substituted for the rolloff as well: the
chroma failure changes the stored value of a different feature,
contradicting per-feature isolation. -/
theorem claim_C2_cex :
    oC2a.rolloffVal = oC2b.rolloffVal ∧
    (extract_librosa_features [1] 22050 oC2a).map LibFeatures.spectral_rolloff = some 3000 ∧
    (extract_librosa_features [1] 22050 oC2b).map LibFeatures.spectral_rolloff = some 2000 := by
  refine ⟨rfl, ?_, ?_⟩ <;> simp [extract_librosa_features, oC2a, oC2b]

/-- C2 amended: feature computation on a nonempty decoded buffer always
produces the complete feature dict, and failures are isolated at the
granularity of the guarded blocks of `extract_librosa_features`: the
MFCC pair, the spectral centroid, the zero-crossing rate, the RMS
energy, the tempo, the rolloff/chroma pair, and the audio statistics
each depend only on their own block's outcome — but spectral rolloff and
chroma mean share one block (as do the two MFCC statistics), so a chroma
failure also substitutes the rolloff default. -/
theorem claim_C2_amended (y : List ℚ) (sr : ℚ) (o o2 : LibOutcomes) (hy : y ≠ []) :
    (extract_librosa_features y sr o).isSome = true ∧
    (o.mfccPair = o2.mfccPair →
      (extract_librosa_features y sr o).map LibFeatures.mfcc_mean =
        (extract_librosa_features y sr o2).map LibFeatures.mfcc_mean ∧
      (extract_librosa_features y sr o).map LibFeatures.mfcc_std =
        (extract_librosa_features y sr o2).map LibFeatures.mfcc_std) ∧
    (o.centroidVal = o2.centroidVal →
      (extract_librosa_features y sr o).map LibFeatures.spectral_centroid =
        (extract_librosa_features y sr o2).map LibFeatures.spectral_centroid) ∧
    (o.zcrVal = o2.zcrVal →
      (extract_librosa_features y sr o).map LibFeatures.zcr =
        (extract_librosa_features y sr o2).map LibFeatures.zcr) ∧
    (o.rmsVal = o2.rmsVal →
      (extract_librosa_features y sr o).map LibFeatures.rms =
        (extract_librosa_features y sr o2).map LibFeatures.rms) ∧
    (o.beatVal = o2.beatVal →
      (extract_librosa_features y sr o).map LibFeatures.tempo =
        (extract_librosa_features y sr o2).map LibFeatures.tempo) ∧
    (o.rolloffVal = o2.rolloffVal → o.chromaVal = o2.chromaVal →
      (extract_librosa_features y sr o).map LibFeatures.spectral_rolloff =
        (extract_librosa_features y sr o2).map LibFeatures.spectral_rolloff ∧
      (extract_librosa_features y sr o).map LibFeatures.chroma_mean =
        (extract_librosa_features y sr o2).map LibFeatures.chroma_mean) ∧
    (o.stdVal = o2.stdVal →
      (extract_librosa_features y sr o).map LibFeatures.audio_std =
        (extract_librosa_features y sr o2).map LibFeatures.audio_std) := by
  refine ⟨by simp [extract_librosa_features, hy], ?_, ?_, ?_, ?_, ?_, ?_, ?_⟩
  · intro h
    constructor <;> simp [extract_librosa_features, hy, h]
  · intro h
    simp [extract_librosa_features, hy, h]
  · intro h
    simp [extract_librosa_features, hy, h]
  · intro h
    simp [extract_librosa_features, hy, h]
  · intro h
    simp [extract_librosa_features, hy, h]
  · intro h h2
    constructor <;> simp [extract_librosa_features, hy, h, h2]
  · intro h
    simp [extract_librosa_features, hy, h]

/-- C2 witness: the amended statement on a concrete one-sample buffer
and two outcome records agreeing on the zero-crossing block. -/
theorem claim_C2_witness :
    (extract_librosa_features [1] 22050 oC2a).isSome = true ∧
    (extract_librosa_features [1] 22050 oC2a).map LibFeatures.zcr =
      (extract_librosa_features [1] 22050 oC2b).map LibFeatures.zcr := by
  have h := claim_C2_amended [1] 22050 oC2a oC2b (by simp)
  exact ⟨h.1, h.2.2.2.1 rfl⟩

/-- C1 evaluation at the failing input: a 44-byte (hence non-empty)
file whose direct decode (method 1) succeeds with zero samples — which
only falls through — and whose alternate decode (method 3) again
succeeds with zero samples at 22050 Hz, upon which
`extract_librosa_features` is returned unconditionally and yields
`None`: the chain surfaces an extraction error for a non-empty input
instead of falling through to the byte-heuristic synthesizer.  With the
same file and all decodes raising, the chain does reach the synthesizer
and produces a feature vector. -/
theorem claim_C1_eval :
    extract_audio_features_multiple_methods 44 [82, 73, 70, 70] dC1 oAll = none ∧
    (extract_audio_features_multiple_methods 44 [82, 73, 70, 70] dAll oAll).isSome = true := by
  exact ⟨rfl, rfl⟩

/-- C6 counterexample: for a 256-byte file whose header bytes take all
256 distinct values, the header diversity is exactly 1 and the
synthesized chroma mean is exactly 0.7 — not strictly below 0.7 as the
claim states. -/
theorem claim_C6_cex :
    (synthFeatures 256 (List.range 256)).chroma_mean = 7/10 ∧
    ¬ (synthFeatures 256 (List.range 256)).chroma_mean < 7/10 := by
  have hd : (List.range 256).dedup = List.range 256 := (List.nodup_range 256).dedup
  have hval : (synthFeatures 256 (List.range 256)).chroma_mean = 7/10 := by
    show (3:ℚ)/10 + ((List.range 256).dedup.length : ℚ) / 256 * (2/5) = 7/10
    rw [hd, List.length_range]
    norm_num
  exact ⟨hval, by rw [hval]; exact lt_irrefl _⟩

/-- C6 amended: for every file of positive size with a non-empty header
of byte values (each below 256), the synthesized tempo lies in
[80, 160), the chroma mean lies in (0.3, 0.7] — it can equal 0.7, the
claimed right-open bound fails only there — and the duration is at most
the 60-second cap. -/
theorem claim_C6_amended (n : ℕ) (header : List ℕ) (_hn : 0 < n) (hne : header ≠ [])
    (hb : ∀ b ∈ header, b < 256) :
    80 ≤ (synthFeatures n header).tempo ∧ (synthFeatures n header).tempo < 160 ∧
    3/10 < (synthFeatures n header).chroma_mean ∧
    (synthFeatures n header).chroma_mean ≤ 7/10 ∧
    (synthFeatures n header).duration ≤ 60 := by
  have htempo : (synthFeatures n header).tempo = 80 + ((n % 80 : ℕ) : ℚ) := rfl
  have hchroma : (synthFeatures n header).chroma_mean =
      3/10 + (header.dedup.length : ℚ) / 256 * (2/5) := rfl
  have hdur : (synthFeatures n header).duration = pyminQ ((n : ℚ) / (44100 * 2)) 60 := rfl
  have hL1 : 1 ≤ header.dedup.length := by
    refine List.length_pos.mpr ?_
    intro h
    exact hne ((List.dedup_eq_nil header).mp h)
  have hL2 : header.dedup.length ≤ 256 := by
    have hnd := List.nodup_dedup header
    have hsub : header.dedup.toFinset ⊆ Finset.range 256 := by
      intro b hbm
      rw [List.mem_toFinset, List.mem_dedup] at hbm
      exact Finset.mem_range.mpr (hb b hbm)
    calc header.dedup.length = header.dedup.toFinset.card :=
          (List.toFinset_card_of_nodup hnd).symm
      _ ≤ (Finset.range 256).card := Finset.card_le_card hsub
      _ = 256 := Finset.card_range 256
  have hLq1 : (1:ℚ) ≤ (header.dedup.length : ℚ) := by exact_mod_cast hL1
  have hLq2 : (header.dedup.length : ℚ) ≤ 256 := by exact_mod_cast hL2
  have hm : n % 80 < 80 := Nat.mod_lt n (by norm_num)
  have hmq : ((n % 80 : ℕ) : ℚ) < 80 := by exact_mod_cast hm
  have hmq0 : (0:ℚ) ≤ ((n % 80 : ℕ) : ℚ) := Nat.cast_nonneg _
  refine ⟨by rw [htempo]; linarith, by rw [htempo]; linarith,
    by rw [hchroma]; linarith, by rw [hchroma]; linarith, ?_⟩
  rw [hdur]
  unfold pyminQ
  split_ifs with h
  · exact h
  · exact le_refl 60

/-- C6 witness: the amended statement for a 3-byte file with header
byte 7. -/
theorem claim_C6_witness :
    80 ≤ (synthFeatures 3 [7]).tempo ∧ (synthFeatures 3 [7]).tempo < 160 ∧
    3/10 < (synthFeatures 3 [7]).chroma_mean ∧
    (synthFeatures 3 [7]).chroma_mean ≤ 7/10 ∧
    (synthFeatures 3 [7]).duration ≤ 60 :=
  claim_C6_amended 3 [7] (by norm_num) (by simp) (by decide)

/-- C4: `top1` and `top2` — the first two entries of the descending sort
of the score table — are respectively the highest score and the highest
remaining score after removing one occurrence of `top1`; the returned
confidence is the integer clamp of base + 2·(top1 − top2) (floored),
with base 60 and clamp [65,95] for PCM-derived vectors and effective
base 50 (60 with the subsequent −10 adjustment) and clamp [60,85] for
the byte-heuristic tag, falling back to base + top1 under the same
clamps when top2 is zero; in all cases the confidence lies in [65,95]
for PCM-derived vectors and in [60,85] for byte-heuristic ones. -/
theorem claim_C4 (fv : Features) :
    (top1 fv ∈ scoresList fv ∧ ∀ s ∈ scoresList fv, s ≤ top1 fv) ∧
    (top2 fv ∈ (scoresList fv).erase (top1 fv) ∧
      ∀ s ∈ (scoresList fv).erase (top1 fv), s ≤ top2 fv) ∧
    (fv.analysis_method = bhTag →
      60 ≤ confidence fv ∧ confidence fv ≤ 85 ∧
      (0 < top2 fv →
        confidence fv = min 85 (max 60 ⌊(50:ℚ) + (top1 fv - top2 fv) * 2⌋)) ∧
      (top2 fv = 0 → confidence fv = min 85 (max 60 ⌊(50:ℚ) + top1 fv⌋))) ∧
    (fv.analysis_method ≠ bhTag →
      65 ≤ confidence fv ∧ confidence fv ≤ 95 ∧
      (0 < top2 fv →
        confidence fv = min 95 (max 65 ⌊(60:ℚ) + (top1 fv - top2 fv) * 2⌋)) ∧
      (top2 fv = 0 → confidence fv = min 95 (max 65 ⌊(60:ℚ) + top1 fv⌋))) := by
  obtain ⟨hm1, hub1, hm2, hub2, hab⟩ := topSpec fv
  have hshift : ∀ x : ℚ, ⌊(60:ℚ) + x⌋ - 10 = ⌊(50:ℚ) + x⌋ := by
    intro x
    have h9 : (50:ℚ) + x = (60 + x) - ((10:ℤ) : ℚ) := by push_cast; ring
    rw [h9, Int.floor_sub_int]
  refine ⟨⟨hm1, hub1⟩, ⟨hm2, hub2⟩, ?_, ?_⟩
  · intro hmeth
    have hc : confidence fv = min 85 (max 60 (confBase fv - 10)) := by
      rw [confidence, if_pos hmeth, pyminI_eq, pymaxI_eq]
    refine ⟨?_, ?_, ?_, ?_⟩
    · rw [hc]
      exact le_min (by norm_num) (le_max_left _ _)
    · rw [hc]
      exact min_le_left _ _
    · intro ht
      rw [hc, confBase_eq, if_pos ht, hshift]
    · intro ht
      rw [hc, confBase_eq, if_neg (by rw [ht]; exact lt_irrefl 0), hshift]
  · intro hmeth
    have hc : confidence fv = min 95 (max 65 (confBase fv)) := by
      rw [confidence, if_neg hmeth, pyminI_eq, pymaxI_eq]
    refine ⟨?_, ?_, ?_, ?_⟩
    · rw [hc]
      exact le_min (by norm_num) (le_max_left _ _)
    · rw [hc]
      exact min_le_left _ _
    · intro ht
      rw [hc, confBase_eq, if_pos ht]
    · intro ht
      rw [hc, confBase_eq, if_neg (by rw [ht]; exact lt_irrefl 0)]

/-- C4 witness: the theorem at the concrete PCM-derived vector
`fvT 120`, whose second-highest score is positive. -/
theorem claim_C4_witness :
    65 ≤ confidence (fvT 120) ∧
    confidence (fvT 120) =
      min 95 (max 65 ⌊(60:ℚ) + (top1 (fvT 120) - top2 (fvT 120)) * 2⌋) := by
  have h := (claim_C4 (fvT 120)).2.2.2 (by decide)
  refine ⟨h.1, h.2.2.1 ?_⟩
  unfold top2 sortedScores scoresList emotionOrder scoresFun preDamp baseScore
    tempoBonus centroidBonus rmsBonus zcrBonus durationFactor pyminQ fvT
  norm_num
